import Mathlib

/-!
Shallow embedding of the geocoder repository's batch-resolution pipeline.

Sources:
* `src/geocoder_app.py` — reverse geocoding app: manual/CSV/WKT input
  normalization and the batch reverse-geocoding loop (lines 100-208).
* `src/streamlit_geocoder_app.py` — forward geocoding app: `load_data`,
  `geocode_addresses`, `df_to_geojson`, and the module-level
  `RateLimiter(geolocator.geocode, min_delay_seconds=1)`.

Numbers are modelled as rationals; cell values of a dataframe as a small
`Value` type; the external Nominatim service as an oracle function so that a
batch run is a pure function of its input and the oracle's answers.
-/

namespace Geocoder

/-- A dataframe / JSON cell value: a number, a string, or null (None/NaN). -/
inductive Value where
  | num (q : ℚ)
  | str (s : String)
  | null
deriving DecidableEq, Repr

/-- A resolved location returned by the provider (`location.address`). -/
structure Location where
  address : String
deriving DecidableEq, Repr

/-- Outcome of one call to `geolocator.reverse` in `src/geocoder_app.py`:
the call returns a location, returns `None`, or raises `GeocoderTimedOut`,
`GeocoderServiceError`, or some other exception. -/
inductive ReverseResponse where
  | found (loc : Location)
  | noneFound
  | timedOut
  | serviceError (msg : String)
  | otherError (msg : String)
deriving DecidableEq, Repr

/-- One row appended to `results` by the batch loop of `src/geocoder_app.py`
(lines 164-207): the dict with keys Latitude, Longitude, Address, Status. -/
structure BatchRecord where
  latitude : ℚ
  longitude : ℚ
  address : String
  status : String
deriving DecidableEq, Repr

/-- The range check of `src/geocoder_app.py` line 167:
`-90 <= lat <= 90` and `-180 <= lon <= 180`. -/
def inRange (lat lon : ℚ) : Prop :=
  ((-90 : ℚ) ≤ lat ∧ lat ≤ 90) ∧ ((-180 : ℚ) ≤ lon ∧ lon ≤ 180)

instance (lat lon : ℚ) : Decidable (inRange lat lon) := by
  unfold inRange; infer_instance

/-- The exception handlers and success/None branches of the batch loop
(`src/geocoder_app.py` lines 172-207): how one provider response becomes one
result record. -/
def classifyResponse (lat lon : ℚ) : ReverseResponse → BatchRecord
  | .found loc => ⟨lat, lon, loc.address, "Success"⟩
  | .noneFound => ⟨lat, lon, "No address found", "Warning"⟩
  | .timedOut => ⟨lat, lon, "Geocoding Timed Out", "Error"⟩
  | .serviceError e => ⟨lat, lon, "Service Error: " ++ e, "Error"⟩
  | .otherError e => ⟨lat, lon, "Unexpected Error: " ++ e, "Error"⟩

/-- One iteration of the batch loop (`src/geocoder_app.py` lines 164-207):
out-of-range coordinates are recorded as `Invalid Coordinates`/`Error` and
skipped (`continue`); otherwise `geolocator.reverse` is called once.  The
second component is the list of calls this iteration dispatched to the
external service. -/
def reverseStep (g : ℚ → ℚ → ReverseResponse) (lat lon : ℚ) :
    BatchRecord × List (ℚ × ℚ) :=
  if inRange lat lon then (classifyResponse lat lon (g lat lon), [(lat, lon)])
  else (⟨lat, lon, "Invalid Coordinates", "Error"⟩, [])

/-- The whole batch loop of `src/geocoder_app.py` (lines 164-208): one record
per coordinate pair, in input order, together with the log of calls actually
dispatched to `geolocator.reverse`. -/
def runBatch (g : ℚ → ℚ → ReverseResponse) :
    List (ℚ × ℚ) → List BatchRecord × List (ℚ × ℚ)
  | [] => ([], [])
  | (lat, lon) :: rest =>
    let s := reverseStep g lat lon
    let r := runBatch g rest
    (s.1 :: r.1, s.2 ++ r.2)

/-- An oracle for which every reverse call returns `None`. -/
def constNoneFound : ℚ → ℚ → ReverseResponse := fun _ _ => .noneFound

/-- An oracle for which every reverse call times out. -/
def constTimedOut : ℚ → ℚ → ReverseResponse := fun _ _ => .timedOut

lemma reverseStep_latitude (g : ℚ → ℚ → ReverseResponse) (lat lon : ℚ) :
    (reverseStep g lat lon).1.latitude = lat := by
  unfold reverseStep
  split
  · cases g lat lon <;> rfl
  · rfl

lemma reverseStep_longitude (g : ℚ → ℚ → ReverseResponse) (lat lon : ℚ) :
    (reverseStep g lat lon).1.longitude = lon := by
  unfold reverseStep
  split
  · cases g lat lon <;> rfl
  · rfl

/-- Outcome of one call of the rate-limited `geocode` in
`src/streamlit_geocoder_app.py`: a location with coordinates, `None`,
or a raised exception. -/
inductive ForwardResponse where
  | found (lat lon : ℚ) (address : String)
  | notFound
  | raised (msg : String)
deriving DecidableEq, Repr

/-- The loop body of `geocode_addresses` (`src/streamlit_geocoder_app.py`
lines 82-100): it builds the three lists `latitudes`, `longitudes`,
`geocoded_addresses`, appending exactly one entry to each per address — a
found location's fields, or `None`/`None`/"Not Found" on no match, or
`None`/`None`/"Error: e" when the call raised `e`. -/
def geocodeLists (g : Value → ForwardResponse) :
    List Value → List Value × List Value × List Value
  | [] => ([], [], [])
  | a :: rest =>
    let r := geocodeLists g rest
    match g a with
    | .found la lo addr => (.num la :: r.1, .num lo :: r.2.1, .str addr :: r.2.2)
    | .notFound => (.null :: r.1, .null :: r.2.1, .str "Not Found" :: r.2.2)
    | .raised e => (.null :: r.1, .null :: r.2.1, .str ("Error: " ++ e) :: r.2.2)

/-- An oracle for which every forward call raises with message "boom". -/
def raisedBoom : Value → ForwardResponse := fun _ => .raised "boom"

/-- An oracle for which every forward call returns no match. -/
def constNotFound : Value → ForwardResponse := fun _ => .notFound

/-- C1: the batch loop of `src/geocoder_app.py` yields exactly one result
record per input pair, in input order, whatever the oracle answers (so no
per-item outcome aborts the run); likewise the loop of `geocode_addresses`
in `src/streamlit_geocoder_app.py` appends exactly one entry per input
address to each of its three result lists. -/
theorem c1_one_record_per_query_in_order :
    (∀ (g : ℚ → ℚ → ReverseResponse) (coords : List (ℚ × ℚ)),
      ((runBatch g coords).1).map (fun r => (r.latitude, r.longitude)) = coords)
    ∧ (∀ (g : Value → ForwardResponse) (addrs : List Value),
      (geocodeLists g addrs).1.length = addrs.length
      ∧ (geocodeLists g addrs).2.1.length = addrs.length
      ∧ (geocodeLists g addrs).2.2.length = addrs.length) := by
  constructor
  · intro g coords
    induction coords with
    | nil => rfl
    | cons p rest ih =>
      obtain ⟨lat, lon⟩ := p
      simp only [runBatch, List.map_cons, ih, reverseStep_latitude,
        reverseStep_longitude]
  · intro g addrs
    induction addrs with
    | nil => exact ⟨rfl, rfl, rfl⟩
    | cons a rest ih =>
      simp only [geocodeLists]
      cases g a <;>
        simp only [List.length_cons, ih.1, ih.2.1, ih.2.2, and_self]

/-- C2: every provider failure signal in the batch loop of
`src/geocoder_app.py` is caught and mapped to a fixed record shape — timeout
to the "Geocoding Timed Out"/"Error" record, a service error to the
"Service Error: …"/"Error" record, an empty response to the
"No address found"/"Warning" record, and any other exception to the
"Unexpected Error: …"/"Error" record carrying the diagnostic text; and in
`geocode_addresses` of `src/streamlit_geocoder_app.py` a raised exception is
likewise caught and recorded as null coordinates plus "Error: …" carrying
the diagnostic text. -/
theorem c2_failure_signals_mapped :
    (∀ (g : ℚ → ℚ → ReverseResponse) (lat lon : ℚ), inRange lat lon →
      (g lat lon = .timedOut →
        (reverseStep g lat lon).1 = ⟨lat, lon, "Geocoding Timed Out", "Error"⟩)
      ∧ (∀ e, g lat lon = .serviceError e →
        (reverseStep g lat lon).1 = ⟨lat, lon, "Service Error: " ++ e, "Error"⟩)
      ∧ (g lat lon = .noneFound →
        (reverseStep g lat lon).1 = ⟨lat, lon, "No address found", "Warning"⟩)
      ∧ (∀ e, g lat lon = .otherError e →
        (reverseStep g lat lon).1 = ⟨lat, lon, "Unexpected Error: " ++ e, "Error"⟩))
    ∧ (∀ (g : Value → ForwardResponse) (a : Value) (l : List Value) (e : String),
      g a = .raised e →
      geocodeLists g (a :: l) =
        (.null :: (geocodeLists g l).1, .null :: (geocodeLists g l).2.1,
          .str ("Error: " ++ e) :: (geocodeLists g l).2.2)) := by
  constructor
  · intro g lat lon h
    refine ⟨fun he => ?_, fun e he => ?_, fun he => ?_, fun e he => ?_⟩ <;>
      simp only [reverseStep, if_pos h, he, classifyResponse]
  · intro g a l e he
    simp only [geocodeLists, he]

/-- Witness for C2 at concrete inputs: a timed-out reverse call at (0, 0)
and a raising forward call. -/
theorem c2_failure_signals_mapped_witness :
    (reverseStep constTimedOut 0 0).1 = ⟨0, 0, "Geocoding Timed Out", "Error"⟩
    ∧ geocodeLists raisedBoom [Value.str "a"] =
      ([Value.null], [Value.null], [Value.str "Error: boom"]) :=
  ⟨(c2_failure_signals_mapped.1 constTimedOut 0 0 (by norm_num [inRange])).1 rfl,
    c2_failure_signals_mapped.2 raisedBoom (Value.str "a") [] "boom" rfl⟩

/-- C3: an out-of-range pair is recorded as the Invalid record and dispatches
no call to the external service; across a whole batch run the dispatched
calls are exactly the in-range input pairs. -/
theorem c3_invalid_without_call :
    (∀ (g : ℚ → ℚ → ReverseResponse) (lat lon : ℚ), ¬ inRange lat lon →
      reverseStep g lat lon = (⟨lat, lon, "Invalid Coordinates", "Error"⟩, []))
    ∧ (∀ (g : ℚ → ℚ → ReverseResponse) (coords : List (ℚ × ℚ)),
      (runBatch g coords).2 =
        coords.filter (fun p => decide (inRange p.1 p.2))) := by
  constructor
  · intro g lat lon h
    simp only [reverseStep, if_neg h]
  · intro g coords
    induction coords with
    | nil => rfl
    | cons p rest ih =>
      obtain ⟨lat, lon⟩ := p
      simp only [runBatch, ih, List.filter_cons]
      by_cases h : inRange lat lon
      · simp only [reverseStep, if_pos h, decide_eq_true h, List.cons_append,
          List.nil_append, if_true]
      · simp only [reverseStep, if_neg h, decide_eq_false h, List.nil_append,
          Bool.false_eq_true, if_false]

/-- Witness for C3: latitude 95 is out of range, yields the Invalid record
with no dispatched call; a batch of [(95,0), (0,0)] dispatches only (0,0). -/
theorem c3_invalid_without_call_witness :
    reverseStep constNoneFound 95 0 =
      (⟨95, 0, "Invalid Coordinates", "Error"⟩, [])
    ∧ (runBatch constNoneFound [(95, 0), (0, 0)]).2 = [(0, 0)] := by
  refine ⟨c3_invalid_without_call.1 constNoneFound 95 0 (by norm_num [inRange]), ?_⟩
  rw [c3_invalid_without_call.2 constNoneFound [(95, 0), (0, 0)]]
  decide

/-! ### Pacing model (C4)

`src/streamlit_geocoder_app.py` line 20 wraps every forward call in
`RateLimiter(geolocator.geocode, min_delay_seconds=1)`; the reverse batch
loop of `src/geocoder_app.py` (lines 159-172) calls `geolocator.reverse`
directly, with no rate limiter. We model dispatch times on a rational
timeline: each call has a duration supplied as input, and the rate limiter
delays a dispatch until one time unit after the previous dispatch. -/

/-- State threaded through a run: the current time and the time of the last
dispatch (the RateLimiter's shared pacing token). -/
structure PacerState where
  now : ℚ
  lastDispatch : Option ℚ
deriving DecidableEq, Repr

/-- One call through the RateLimiter wrapper: wait until `minDelay` after the
last dispatch, dispatch, and let the call run for `duration`.  Returns the
dispatch time and the new state. -/
def rateLimitedDispatch (minDelay : ℚ) (st : PacerState) (duration : ℚ) :
    ℚ × PacerState :=
  let start := match st.lastDispatch with
    | none => st.now
    | some l => max st.now (l + minDelay)
  (start, ⟨start + duration, some start⟩)

/-- Dispatch times of the forward loop of `geocode_addresses`, where every
call goes through the shared `geocode = RateLimiter(…, min_delay_seconds=1)`. -/
def forwardDispatchTimes (st : PacerState) : List ℚ → List ℚ
  | [] => []
  | d :: ds =>
    let r := rateLimitedDispatch 1 st d
    r.1 :: forwardDispatchTimes r.2 ds

/-- Dispatch times of the reverse batch loop of `src/geocoder_app.py`, which
calls `geolocator.reverse` directly: each call is dispatched immediately at
the current time and the next iteration starts as soon as it returns. -/
def reverseDispatchTimes (now : ℚ) : List ℚ → List ℚ
  | [] => []
  | d :: ds => now :: reverseDispatchTimes (now + d) ds

/-- Two successive dispatches at least one time unit apart. -/
def paced (a b : ℚ) : Prop := a + 1 ≤ b

lemma forwardDispatchTimes_head_ge (t n : ℚ) (ds : List ℚ) :
    ∀ y ∈ (forwardDispatchTimes ⟨n, some t⟩ ds).head?, t + 1 ≤ y := by
  cases ds with
  | nil => intro y hy; simp [forwardDispatchTimes] at hy
  | cons d ds =>
    intro y hy
    simp only [forwardDispatchTimes, rateLimitedDispatch, List.head?_cons,
      Option.mem_def, Option.some.injEq] at hy
    subst hy
    exact le_max_right _ _

/-- C4 counterexample: in the reverse batch loop of `src/geocoder_app.py`
(no rate limiter), a run of two calls of duration 0 starting at time 0
dispatches at times [0, 0] — successive dispatches are not one time unit
apart, so not every resolution call of a batch run passes through a pacing
mechanism enforcing a minimum inter-call delay of 1. -/
theorem c4_counterexample_reverse_unpaced :
    reverseDispatchTimes 0 [0, 0] = [0, 0]
    ∧ ¬ List.Chain' paced (reverseDispatchTimes 0 [0, 0]) := by
  constructor
  · show (0 : ℚ) :: reverseDispatchTimes (0 + 0) [0] = [0, 0]
    norm_num [reverseDispatchTimes]
  · intro h
    show False
    have h0 : reverseDispatchTimes 0 [0, 0] = [0, 0] := by
      norm_num [reverseDispatchTimes]
    rw [h0, List.chain'_cons] at h
    have := h.1
    unfold paced at this
    norm_num at this

/-- C4 amended: in the forward app every call goes through the single shared
RateLimiter, whose successive dispatches are always at least one time unit
apart, whatever the starting state and call durations; the reverse batch
loop dispatches each call immediately at the current time, with no pacing
step between successive dispatches. -/
theorem c4_amended_pacing :
    (∀ (st : PacerState) (ds : List ℚ),
      List.Chain' paced (forwardDispatchTimes st ds))
    ∧ (∀ (t d : ℚ) (ds : List ℚ),
      reverseDispatchTimes t (d :: ds) = t :: reverseDispatchTimes (t + d) ds) := by
  constructor
  · intro st ds
    induction ds generalizing st with
    | nil => simp [forwardDispatchTimes]
    | cons d ds ih =>
      rw [forwardDispatchTimes, List.chain'_cons']
      refine ⟨?_, ih _⟩
      intro y hy
      have := forwardDispatchTimes_head_ge (rateLimitedDispatch 1 st d).1
        (rateLimitedDispatch 1 st d).2.now ds y
      exact this hy
  · intro t d ds
    rfl

/-! ### WKT normalization and CSV column dispatch (C5, C9)

`src/geocoder_app.py` lines 104-131.  The external shapely parser is
modelled by letting each WKT cell carry its parse outcome: a parsed Point
geometry with its x and y, a parsed geometry of another type, or a parse
failure. -/

/-- Parse outcome of one cell of the `WKT` column under `shapely.wkt.loads`. -/
inductive WktCell where
  | point (x y : ℚ)
  | nonPoint (geomType : String)
  | parseFailure (msg : String)
deriving DecidableEq, Repr

/-- The coordinate pair a Point cell contributes: the code appends
`[point.y, point.x]`, i.e. latitude := y, longitude := x
(`src/geocoder_app.py` line 114). -/
def pointLatLon : WktCell → Option (ℚ × ℚ)
  | .point x y => some (y, x)
  | _ => none

/-- The WKT branch of the CSV loader (`src/geocoder_app.py` lines 108-120):
Point cells contribute a (latitude, longitude) pair in row order; any other
cell is skipped with one warning.  Returns the pairs and the warning count. -/
def wktRowsToCoords : List WktCell → List (ℚ × ℚ) × Nat
  | [] => ([], 0)
  | c :: rest =>
    let r := wktRowsToCoords rest
    match c with
    | .point x y => ((y, x) :: r.1, r.2)
    | .nonPoint _ => (r.1, r.2 + 1)
    | .parseFailure _ => (r.1, r.2 + 1)

/-- A CSV row as far as the loader reads it: the parse outcome of its `WKT`
cell and its `latitude`/`longitude` cells. -/
structure CsvRow where
  wkt : WktCell
  latitude : ℚ
  longitude : ℚ
deriving DecidableEq, Repr

/-- An uploaded CSV: its column names and its rows. -/
structure CsvFrame where
  columns : List String
  rows : List CsvRow
deriving Repr

/-- The column-shape dispatch of the CSV loader (`src/geocoder_app.py`
lines 106-131): a `WKT` column takes precedence; otherwise `latitude` and
`longitude` columns are read directly; otherwise the upload is rejected. -/
def loadCsvCoords (df : CsvFrame) : Except String (List (ℚ × ℚ)) :=
  if "WKT" ∈ df.columns then
    .ok (wktRowsToCoords (df.rows.map (·.wkt))).1
  else if "latitude" ∈ df.columns ∧ "longitude" ∈ df.columns then
    .ok (df.rows.map (fun r => (r.latitude, r.longitude)))
  else
    .error "CSV must contain either latitude and longitude columns, or a WKT column"

lemma wktRowsToCoords_spec (cells : List WktCell) :
    (wktRowsToCoords cells).1 = cells.filterMap pointLatLon
    ∧ (wktRowsToCoords cells).1.length + (wktRowsToCoords cells).2 =
      cells.length := by
  induction cells with
  | nil => exact ⟨rfl, rfl⟩
  | cons c rest ih =>
    obtain ⟨ih1, ih2⟩ := ih
    constructor
    · cases c <;>
        simp only [wktRowsToCoords, List.filterMap_cons, pointLatLon, ih1]
    · cases c <;> simp only [wktRowsToCoords, List.length_cons] <;> omega

/-- C5: over any list of WKT cells the loader never fails: the produced
pairs are exactly the Point cells in row order, each read as latitude := y,
longitude := x, while every non-Point or unparseable cell is skipped with
one warning; in particular the cell parsed from "POINT (-82.6074 35.5306)"
(x = -82.6074, y = 35.5306) yields latitude 35.5306, longitude -82.6074. -/
theorem c5_wkt_point_axis_order :
    (∀ cells : List WktCell,
      (wktRowsToCoords cells).1 = cells.filterMap pointLatLon
      ∧ (wktRowsToCoords cells).1.length + (wktRowsToCoords cells).2 =
        cells.length)
    ∧ wktRowsToCoords [WktCell.point (-82.6074) 35.5306] =
      ([((35.5306 : ℚ), (-82.6074 : ℚ))], 0) :=
  ⟨wktRowsToCoords_spec, rfl⟩

/-- C9: when the `WKT` column is present the loader uses it and ignores the
`latitude`/`longitude` cells entirely — two frames with the same columns and
the same WKT cells load identically however their latitude/longitude cells
differ — and the produced pairs are the ones derived from the WKT cells. -/
theorem c9_wkt_precedence (cols : List String) (rows rows' : List CsvRow)
    (hW : "WKT" ∈ cols) (hsame : rows.map (·.wkt) = rows'.map (·.wkt)) :
    loadCsvCoords ⟨cols, rows⟩ = loadCsvCoords ⟨cols, rows'⟩
    ∧ loadCsvCoords ⟨cols, rows⟩ =
      .ok ((rows.map (·.wkt)).filterMap pointLatLon) := by
  have h1 : loadCsvCoords ⟨cols, rows⟩ =
      .ok (wktRowsToCoords (rows.map (·.wkt))).1 := by
    simp only [loadCsvCoords, if_pos hW]
  have h2 : loadCsvCoords ⟨cols, rows'⟩ =
      .ok (wktRowsToCoords (rows'.map (·.wkt))).1 := by
    simp only [loadCsvCoords, if_pos hW]
  refine ⟨?_, ?_⟩
  · rw [h1, h2, hsame]
  · rw [h1, (wktRowsToCoords_spec (rows.map (·.wkt))).1]

/-- Witness for C9: a frame whose columns include WKT and latitude/longitude;
changing the latitude/longitude cells does not change the loaded pairs. -/
theorem c9_wkt_precedence_witness :
    loadCsvCoords ⟨["WKT", "latitude", "longitude"],
        [⟨WktCell.point 1 2, 50, 60⟩]⟩
      = loadCsvCoords ⟨["WKT", "latitude", "longitude"],
        [⟨WktCell.point 1 2, 70, 80⟩]⟩
    ∧ loadCsvCoords ⟨["WKT", "latitude", "longitude"],
        [⟨WktCell.point 1 2, 50, 60⟩]⟩ = .ok [((2 : ℚ), (1 : ℚ))] := by
  have h := c9_wkt_precedence ["WKT", "latitude", "longitude"]
    [⟨WktCell.point 1 2, 50, 60⟩] [⟨WktCell.point 1 2, 70, 80⟩]
    (by decide) rfl
  exact ⟨h.1, h.2⟩

/-! ### GeoJSON export (C6)

`df_to_geojson` in `src/streamlit_geocoder_app.py` (lines 109-132): one
Feature per row whose latitude and longitude are both non-null, geometry
`Point` with coordinates `[longitude, latitude]`, and the row's remaining
fields as properties. -/

/-- One dataframe row as `df.iterrows` presents it: its fields in column
order. -/
abbrev Row := List (String × Value)

/-- Lookup of `row[k]` when the label is present. -/
def rowLookup (r : Row) (k : String) : Option Value :=
  (r.find? (fun kv => kv.1 = k)).map Prod.snd

/-- Model of `pd.notna` on a cell: false exactly on None/NaN. -/
def notnaV : Value → Bool
  | .null => false
  | _ => true

/-- A GeoJSON Feature as `df_to_geojson` builds it. -/
structure Feature where
  geomType : String
  coordinates : List Value
  properties : Row
deriving DecidableEq, Repr

/-- The loop body of `df_to_geojson` (lines 115-126): rows with both
coordinates non-null become a Point Feature with coordinates
`[longitude, latitude]` and properties `row.drop(['latitude','longitude'])`;
every other row contributes nothing. -/
def rowToFeature (r : Row) : Option Feature :=
  match rowLookup r "latitude", rowLookup r "longitude" with
  | some la, some lo =>
    if notnaV la ∧ notnaV lo then
      some ⟨"Point", [lo, la],
        r.filter (fun kv => ¬ (kv.1 = "latitude" ∨ kv.1 = "longitude"))⟩
    else none
  | _, _ => none

/-- The `df_to_geojson` conversion: the features list of the produced
FeatureCollection. -/
def dfToGeojson (rows : List Row) : List Feature := rows.filterMap rowToFeature

/-- Whether a row carries resolved (present and non-null) coordinates. -/
def hasCoords (r : Row) : Bool :=
  ((rowLookup r "latitude").map notnaV).getD false
  && ((rowLookup r "longitude").map notnaV).getD false

lemma rowToFeature_isSome (r : Row) : (rowToFeature r).isSome = hasCoords r := by
  unfold rowToFeature hasCoords
  cases hla : rowLookup r "latitude" with
  | none => simp
  | some la =>
    cases hlo : rowLookup r "longitude" with
    | none => simp
    | some lo =>
      cases hb1 : notnaV la <;> cases hb2 : notnaV lo <;> simp [hb1, hb2]

lemma rowToFeature_eq_none (r : Row) (h : hasCoords r = false) :
    rowToFeature r = none := by
  have hi := rowToFeature_isSome r
  rw [h] at hi
  exact Option.not_isSome_iff_eq_none.mp (by simp [hi])

lemma rowToFeature_some (r : Row) (la lo : Value)
    (hla : rowLookup r "latitude" = some la)
    (hlo : rowLookup r "longitude" = some lo)
    (hna : notnaV la = true) (hno : notnaV lo = true) :
    rowToFeature r = some ⟨"Point", [lo, la],
      r.filter (fun kv => ¬ (kv.1 = "latitude" ∨ kv.1 = "longitude"))⟩ := by
  unfold rowToFeature
  rw [hla, hlo]
  simp [hna, hno]

lemma hasCoords_exists (r : Row) (h : hasCoords r = true) :
    ∃ la lo, rowLookup r "latitude" = some la
      ∧ rowLookup r "longitude" = some lo
      ∧ notnaV la = true ∧ notnaV lo = true := by
  unfold hasCoords at h
  cases hla : rowLookup r "latitude" with
  | none => rw [hla] at h; simp at h
  | some la =>
    cases hlo : rowLookup r "longitude" with
    | none => rw [hla, hlo] at h; simp at h
    | some lo =>
      rw [hla, hlo] at h
      simp only [Option.map_some', Option.getD_some, Bool.and_eq_true] at h
      exact ⟨la, lo, rfl, rfl, h.1, h.2⟩

/-- C6: the export emits exactly one Feature per row with resolved (both
non-null) coordinates and omits every other row; each emitted Feature is a
Point with coordinates ordered [longitude, latitude]; and its properties are
exactly the row's fields with the latitude and longitude labels removed —
no latitude/longitude key remains, every other field is kept. -/
theorem c6_geojson_export :
    (∀ rows : List Row,
      (dfToGeojson rows).length = rows.countP hasCoords)
    ∧ (∀ (r : Row) (la lo : Value),
      rowLookup r "latitude" = some la → rowLookup r "longitude" = some lo →
      notnaV la = true → notnaV lo = true →
      rowToFeature r = some ⟨"Point", [lo, la],
        r.filter (fun kv => ¬ (kv.1 = "latitude" ∨ kv.1 = "longitude"))⟩)
    ∧ (∀ r : Row, hasCoords r = false → rowToFeature r = none)
    ∧ (∀ (r : Row) (f : Feature), rowToFeature r = some f →
      (∀ kv ∈ f.properties, kv.1 ≠ "latitude" ∧ kv.1 ≠ "longitude")
      ∧ (∀ kv ∈ r, kv.1 ≠ "latitude" → kv.1 ≠ "longitude" →
        kv ∈ f.properties)) := by
  refine ⟨?_, ?_, ?_, ?_⟩
  · intro rows
    induction rows with
    | nil => rfl
    | cons r rest ih =>
      simp only [dfToGeojson] at ih ⊢
      rw [List.countP_cons, List.filterMap_cons]
      cases hc : hasCoords r with
      | true =>
        have hs : (rowToFeature r).isSome = true := by
          rw [rowToFeature_isSome]; exact hc
        obtain ⟨f, hf⟩ := Option.isSome_iff_exists.mp hs
        rw [hf]
        simp [ih]
      | false =>
        rw [rowToFeature_eq_none r hc]
        simp [ih]
  · intro r la lo hla hlo hna hno
    exact rowToFeature_some r la lo hla hlo hna hno
  · intro r h
    exact rowToFeature_eq_none r h
  · intro r f hf
    have hc : hasCoords r = true := by
      rw [← rowToFeature_isSome, hf]
      rfl
    obtain ⟨la, lo, hla, hlo, hna, hno⟩ := hasCoords_exists r hc
    have hsome := rowToFeature_some r la lo hla hlo hna hno
    rw [hf] at hsome
    have hfe := Option.some.inj hsome
    subst hfe
    constructor
    · intro kv hkv
      have hp : ¬ (kv.1 = "latitude" ∨ kv.1 = "longitude") := by
        simpa using List.of_mem_filter hkv
      exact ⟨fun h1 => hp (Or.inl h1), fun h2 => hp (Or.inr h2)⟩
    · intro kv hkv h1 h2
      exact List.mem_filter.mpr ⟨hkv, by simp [h1, h2]⟩

/-- Witness for C6: one Success record with latitude 35.5306 and longitude
-82.6074 exports as a Point Feature with coordinates
[-82.6074, 35.5306] whose properties keep the other fields and drop the
coordinate keys. -/
theorem c6_geojson_export_witness :
    rowToFeature
        [("address", Value.str "X"), ("latitude", Value.num 35.5306),
          ("longitude", Value.num (-82.6074))]
      = some ⟨"Point", [Value.num (-82.6074), Value.num 35.5306],
          [("address", Value.str "X")]⟩ := by
  have h := c6_geojson_export.2.1
    [("address", Value.str "X"), ("latitude", Value.num 35.5306),
      ("longitude", Value.num (-82.6074))]
    (Value.num 35.5306) (Value.num (-82.6074)) (by rfl) (by rfl) rfl rfl
  rw [h]
  rfl

/-! ### GeoJSON input loading (C8)

`load_data` in `src/streamlit_geocoder_app.py` (lines 40-63), the
`application/json` branch. -/

/-- One GeoJSON feature as far as `load_data` reads it: its `properties`
dictionary, when present. -/
structure GeoFeature where
  properties : Option (List (String × String))
deriving DecidableEq, Repr

/-- An uploaded GeoJSON document: its top-level `type` field (when present)
and its `features` array (when present). -/
structure GeoJsonDoc where
  typeField : Option String
  features : Option (List GeoFeature)
deriving DecidableEq, Repr

/-- The check `"properties" in feature and "address" in feature["properties"]`,
returning the address value. -/
def featureAddress (f : GeoFeature) : Option String :=
  match f.properties with
  | none => none
  | some props => props.lookup "address"

/-- The extraction loop of `load_data` (lines 48-53): collect the address of
every feature that has one, in order, issuing one skip warning per feature
that lacks it.  Returns the addresses and the warning count. -/
def extractAddresses : List GeoFeature → List String × Nat
  | [] => ([], 0)
  | f :: rest =>
    let r := extractAddresses rest
    match featureAddress f with
    | some a => (a :: r.1, r.2)
    | none => (r.1, r.2 + 1)

/-- The `application/json` branch of `load_data` (lines 40-60): reject unless
the top-level `type` literally equals "FeatureCollection"; extract addresses
from `geojson_data.get("features", [])`; reject when none was found. -/
def loadGeoJson (doc : GeoJsonDoc) : Except String (List String × Nat) :=
  if doc.typeField = some "FeatureCollection" then
    let r := extractAddresses (doc.features.getD [])
    if r.1.isEmpty then
      .error "No address property found in any GeoJSON feature"
    else .ok r
  else .error "GeoJSON file must be a FeatureCollection"

/-- C8: a document whose top-level type is absent or differs from
"FeatureCollection" is rejected whole; otherwise each feature with a
`properties.address` yields one query, in order, each feature without one is
skipped with exactly one warning, and if no feature yielded an address the
whole input is rejected. -/
theorem c8_geojson_load :
    (∀ doc : GeoJsonDoc, doc.typeField ≠ some "FeatureCollection" →
      loadGeoJson doc = .error "GeoJSON file must be a FeatureCollection")
    ∧ (∀ fs : List GeoFeature,
      (extractAddresses fs).1 = fs.filterMap featureAddress
      ∧ (extractAddresses fs).1.length + (extractAddresses fs).2 = fs.length)
    ∧ (∀ doc : GeoJsonDoc, doc.typeField = some "FeatureCollection" →
      (extractAddresses (doc.features.getD [])).1 = [] →
      loadGeoJson doc = .error "No address property found in any GeoJSON feature")
    ∧ (∀ (doc : GeoJsonDoc) (as : List String) (w : Nat),
      doc.typeField = some "FeatureCollection" →
      extractAddresses (doc.features.getD []) = (as, w) → as ≠ [] →
      loadGeoJson doc = .ok (as, w)) := by
  refine ⟨?_, ?_, ?_, ?_⟩
  · intro doc h
    simp only [loadGeoJson, if_neg h]
  · intro fs
    induction fs with
    | nil => exact ⟨rfl, rfl⟩
    | cons f rest ih =>
      obtain ⟨ih1, ih2⟩ := ih
      constructor
      · cases hf : featureAddress f <;>
          simp only [extractAddresses, List.filterMap_cons, hf, ih1]
      · cases hf : featureAddress f <;>
          simp only [extractAddresses, hf, List.length_cons] <;> omega
  · intro doc ht he
    simp only [loadGeoJson, if_pos ht, he, List.isEmpty_nil, if_true]
  · intro doc as w ht he hne
    simp only [loadGeoJson, if_pos ht, he]
    rw [if_neg (by simpa [List.isEmpty_iff] using hne)]

/-- Witness for C8: a FeatureCollection with one feature lacking
`properties.address` and one feature carrying it loads as exactly that one
address with one skip warning; a document typed "Feature" is rejected. -/
theorem c8_geojson_load_witness :
    loadGeoJson ⟨some "FeatureCollection",
        some [⟨some [("name", "A")]⟩, ⟨some [("address", "X")]⟩]⟩
      = .ok (["X"], 1)
    ∧ loadGeoJson ⟨some "Feature", some []⟩
      = .error "GeoJSON file must be a FeatureCollection" := by
  constructor
  · exact c8_geojson_load.2.2.2
      ⟨some "FeatureCollection",
        some [⟨some [("name", "A")]⟩, ⟨some [("address", "X")]⟩]⟩
      ["X"] 1 rfl (by rfl) (by simp)
  · exact c8_geojson_load.1 ⟨some "Feature", some []⟩ (by simp)

/-! ### Manual coordinate parsing (C7)

`src/geocoder_app.py` lines 139-151.  Python string primitives are modelled
on character lists: `str.split(sep)`, `str.strip()`, and `float()` restricted
to plain decimal literals (optional sign, digits, optional fraction part) —
the inputs this app's manual entry deals in. -/

/-- Python `str.split(sep)` on one separator character: splits at every
occurrence,
keeping empty parts, `[""]` on the empty string. -/
def splitCharAux (sep : Char) : List Char → List Char → List (List Char)
  | [], acc => [acc.reverse]
  | c :: cs, acc =>
    if c = sep then acc.reverse :: splitCharAux sep cs []
    else splitCharAux sep cs (c :: acc)

/-- Python `s.split(sep)`. -/
def pySplit (sep : Char) (s : List Char) : List (List Char) :=
  splitCharAux sep s []

/-- Python `s.strip()`: remove leading and trailing whitespace. -/
def pyStrip (s : List Char) : List Char :=
  ((s.dropWhile Char.isWhitespace).reverse.dropWhile Char.isWhitespace).reverse

/-- The natural number a digit string denotes. -/
def natOfDigits (cs : List Char) : ℕ :=
  cs.foldl (fun n c => 10 * n + (c.toNat - 48)) 0

/-- All characters are decimal digits. -/
def allDigits (cs : List Char) : Bool := cs.all (·.isDigit)

/-- The `float()` builtin on an unsigned decimal literal: digits with at
most one point,
at least one digit in total ("1", "1.5", "1.", ".5"); anything else fails.
Returns the digit string's value and the number of fraction digits, so the
denoted rational is the first component over 10 to the second. -/
def parseUnsigned (cs : List Char) : Option (ℕ × ℕ) :=
  match pySplit '.' cs with
  | [w] => if w ≠ [] ∧ allDigits w then some (natOfDigits w, 0) else none
  | [w, f] =>
    if (w ≠ [] ∨ f ≠ []) ∧ allDigits w ∧ allDigits f then
      some (natOfDigits (w ++ f), f.length)
    else none
  | _ => none

/-- Model of the external `float()` builtin on plain decimal literals:
strip whitespace, optional sign, unsigned decimal literal; `none` models the
`ValueError` Python raises on anything else. -/
def parseFloat (s : List Char) : Option ℚ :=
  match pyStrip s with
  | '-' :: rest => (parseUnsigned rest).map (fun p => mkRat (-(p.1 : ℤ)) (10 ^ p.2))
  | '+' :: rest => (parseUnsigned rest).map (fun p => mkRat p.1 (10 ^ p.2))
  | cs => (parseUnsigned cs).map (fun p => mkRat p.1 (10 ^ p.2))

/-- One comma-containing segment: `lat_str, lon_str =
pair_str.strip().split(',')` then `float` of both tokens
(`src/geocoder_app.py` lines 145-146).  `none` models the `ValueError`
raised when the split does not yield exactly two tokens or a token is not a
float literal. -/
def parsedPair (seg : List Char) : Option (ℚ × ℚ) :=
  match pySplit ',' (pyStrip seg) with
  | [a, b] =>
    match parseFloat a, parseFloat b with
    | some la, some lo => some (la, lo)
    | _, _ => none
  | _ => none

/-- The manual-entry loop (`src/geocoder_app.py` lines 142-151) over the
`';'`-split segments: a segment without a `','` is passed over; a segment
with a `','` either contributes its pair or raises `ValueError`, which ends
the loop — the pairs collected so far are kept and the error flag (the
`st.error` branch) is set. -/
def parseManualSegs : List (List Char) → List (ℚ × ℚ) × Bool
  | [] => ([], false)
  | seg :: rest =>
    if seg.contains ',' then
      match parsedPair seg with
      | some p => (p :: (parseManualSegs rest).1, (parseManualSegs rest).2)
      | none => ([], true)
    else parseManualSegs rest

/-- Manual text input parsing: split on `';'`, then process each segment. -/
def parseManual (s : String) : List (ℚ × ℚ) × Bool :=
  parseManualSegs (pySplit ';' s.toList)

/-- C7 counterexample: on the input "35.5,-82.6;banana" the second segment
contains no comma and is not two float tokens, yet parsing reports no error
and returns the one pair from the first segment — the malformed segment is
silently dropped instead of failing the whole batch input. -/
theorem c7_counterexample_silent_drop :
    parseManual "35.5,-82.6;banana" = ([((35.5 : ℚ), (-82.6 : ℚ))], false)
    ∧ (pySplit ';' ("35.5,-82.6;banana".toList)).length = 2 := by
  constructor
  · have h : parseManual "35.5,-82.6;banana" =
        ([(mkRat 355 (10 ^ 1), mkRat (-(826 : ℤ)) (10 ^ 1))], false) := by
      decide
    rw [h]
    norm_num [Rat.mkRat_eq_div]
  · decide

/-- C7 amended: manual text is split on `';'`; a segment containing no `','`
is silently skipped (not reported); a segment containing a `','` that does
not strip-split into exactly two float-parseable tokens stops parsing with
the error flag set, keeping the pairs collected before it; a segment that
does parse contributes its (latitude, longitude) pair in order; and the
well-formed input "35.5306,-82.6074;34.0522,-118.2437" yields exactly its
two pairs in input order with no error. -/
theorem c7_amended_manual_parsing :
    parseManual "35.5306,-82.6074;34.0522,-118.2437" =
      ([((35.5306 : ℚ), (-82.6074 : ℚ)), ((34.0522 : ℚ), (-118.2437 : ℚ))],
        false)
    ∧ (∀ (seg : List Char) (rest : List (List Char)),
      seg.contains ',' = false →
      parseManualSegs (seg :: rest) = parseManualSegs rest)
    ∧ (∀ (seg : List Char) (rest : List (List Char)),
      seg.contains ',' = true → parsedPair seg = none →
      parseManualSegs (seg :: rest) = ([], true))
    ∧ (∀ (seg : List Char) (rest : List (List Char)) (p : ℚ × ℚ),
      seg.contains ',' = true → parsedPair seg = some p →
      parseManualSegs (seg :: rest) =
        (p :: (parseManualSegs rest).1, (parseManualSegs rest).2)) := by
  refine ⟨?_, ?_, ?_, ?_⟩
  · have h : parseManual "35.5306,-82.6074;34.0522,-118.2437" =
        ([(mkRat 355306 (10 ^ 4), mkRat (-(826074 : ℤ)) (10 ^ 4)),
          (mkRat 340522 (10 ^ 4), mkRat (-(1182437 : ℤ)) (10 ^ 4))],
          false) := by
      decide
    rw [h]
    norm_num [Rat.mkRat_eq_div]
  · intro seg rest h
    conv_lhs => rw [parseManualSegs]
    rw [h]
    simp
  · intro seg rest h hp
    conv_lhs => rw [parseManualSegs]
    rw [h, hp]
    rfl
  · intro seg rest p h hp
    conv_lhs => rw [parseManualSegs]
    rw [h, hp]
    rfl

/-- Witness for C7 amended, at concrete segments: a comma-free segment is
skipped; a comma-containing non-numeric segment sets the error flag. -/
theorem c7_amended_manual_parsing_witness :
    parseManualSegs ["banana".toList, "1,2".toList] =
      parseManualSegs ["1,2".toList]
    ∧ parseManualSegs ["a,b".toList, "1,2".toList] = ([], true) :=
  ⟨c7_amended_manual_parsing.2.1 "banana".toList ["1,2".toList] (by decide),
    c7_amended_manual_parsing.2.2.1 "a,b".toList ["1,2".toList] (by decide)
      (by decide)⟩

/-! ### Forward geocoding frame effect (C10)

`geocode_addresses` in `src/streamlit_geocoder_app.py` (lines 68-107).  A
dataframe is modelled column-wise; `df[name] = values` replaces the column
in place when the label already exists and appends it at the end otherwise
— the pandas column-assignment semantics the function relies on. -/

/-- A dataframe: its columns in order, each a label with its cell list. -/
structure Frame where
  cols : List (String × List Value)
deriving DecidableEq, Repr

/-- The column labels, in order. -/
def colNames (f : Frame) : List String := f.cols.map Prod.fst

/-- Reading `df[name]`: the cells of the named column ([] when absent; the
code only
reads columns it knows exist). -/
def getCol (f : Frame) (n : String) : List Value :=
  ((f.cols.find? (fun c => c.1 = n)).map Prod.snd).getD []

/-- Assignment `df[name] = values`: replace the column in place when
present, append it
otherwise. -/
def setCol (f : Frame) (n : String) (vs : List Value) : Frame :=
  if n ∈ colNames f then
    ⟨f.cols.map (fun c => if c.1 = n then (n, vs) else c)⟩
  else ⟨f.cols ++ [(n, vs)]⟩

/-- The `geocode_addresses` function: build the three result lists over
`df['address']`,
then assign them to the `latitude`, `longitude` and `geocoded_address`
columns (lines 102-104). -/
def geocodeAddresses (g : Value → ForwardResponse) (df : Frame) : Frame :=
  let r := geocodeLists g (getCol df "address")
  setCol (setCol (setCol df "latitude" r.1) "longitude" r.2.1)
    "geocoded_address" r.2.2

/-- A dataframe with an address column that already carries a latitude
column. -/
def dfAddressLatitude : Frame :=
  ⟨[("address", [Value.str "a"]), ("latitude", [Value.num 1])]⟩

/-- C10 counterexample: on a dataframe that already has a `latitude` column,
`geocode_addresses` overwrites that pre-existing column (its cell changes
from 1 to null) and adds only two new columns, not three. -/
theorem c10_counterexample_existing_column_overwritten :
    getCol dfAddressLatitude "latitude" = [Value.num 1]
    ∧ getCol (geocodeAddresses constNotFound dfAddressLatitude) "latitude" =
        [Value.null]
    ∧ (geocodeAddresses constNotFound dfAddressLatitude).cols.length =
        dfAddressLatitude.cols.length + 2 := by
  refine ⟨by decide, by decide, by decide⟩

lemma setCol_of_not_mem (f : Frame) (n : String) (vs : List Value)
    (h : n ∉ colNames f) : setCol f n vs = ⟨f.cols ++ [(n, vs)]⟩ := by
  simp [setCol, h]

lemma find?_name_singleton_ne (n m : String) (vs : List Value) (h : m ≠ n) :
    (([(n, vs)] : List (String × List Value)).find? (fun c => c.1 = m))
      = none := by
  simp [List.find?, Ne.symm h]

lemma getCol_append_last_ne (cols : List (String × List Value)) (n m : String)
    (vs : List Value) (h : m ≠ n) :
    getCol ⟨cols ++ [(n, vs)]⟩ m = getCol ⟨cols⟩ m := by
  unfold getCol
  rw [List.find?_append, find?_name_singleton_ne n m vs h]
  cases cols.find? (fun c => c.1 = m) <;> rfl

lemma getCol_append_last_self (cols : List (String × List Value))
    (n : String) (vs : List Value) (h : n ∉ cols.map Prod.fst) :
    getCol ⟨cols ++ [(n, vs)]⟩ n = vs := by
  unfold getCol
  have hn : cols.find? (fun c => c.1 = n) = none := by
    apply List.find?_eq_none.mpr
    intro c hc
    simp only [decide_eq_true_eq]
    intro hcn
    exact h (hcn ▸ List.mem_map_of_mem Prod.fst hc)
  rw [List.find?_append, hn]
  simp [List.find?]

lemma geocodeLists_lengths (g : Value → ForwardResponse) (as : List Value) :
    (geocodeLists g as).1.length = as.length
    ∧ (geocodeLists g as).2.1.length = as.length
    ∧ (geocodeLists g as).2.2.length = as.length := by
  induction as with
  | nil => exact ⟨rfl, rfl, rfl⟩
  | cons a rest ih =>
    simp only [geocodeLists]
    cases g a <;> simp only [List.length_cons, ih.1, ih.2.1, ih.2.2, and_self]

lemma geocodeLists_get?_notFound (g : Value → ForwardResponse)
    (as : List Value) (i : ℕ) (v : Value) (hv : as.get? i = some v)
    (hg : g v = .notFound) :
    (geocodeLists g as).1.get? i = some .null
    ∧ (geocodeLists g as).2.1.get? i = some .null
    ∧ (geocodeLists g as).2.2.get? i = some (.str "Not Found") := by
  induction as generalizing i with
  | nil => simp at hv
  | cons a rest ih =>
    cases i with
    | zero =>
      rw [List.get?_cons_zero] at hv
      injection hv with hav
      subst hav
      simp only [geocodeLists, hg]
      exact ⟨rfl, rfl, rfl⟩
    | succ i =>
      rw [List.get?_cons_succ] at hv
      have h := ih i hv
      simp only [geocodeLists]
      cases g a <;>
        exact ⟨by rw [List.get?_cons_succ]; exact h.1,
          by rw [List.get?_cons_succ]; exact h.2.1,
          by rw [List.get?_cons_succ]; exact h.2.2⟩

/-- C10 amended: for every input dataframe whose columns do not already
include `latitude`, `longitude` or `geocoded_address`, the geocoding step
leaves all pre-existing columns and their order unchanged and appends
exactly those three columns, each holding exactly one entry per input row;
at every index whose address gets a no-match response, the added entries are
null, null and the literal string "Not Found". -/
theorem c10_amended_frame_effect (g : Value → ForwardResponse) (df : Frame)
    (h1 : "latitude" ∉ colNames df) (h2 : "longitude" ∉ colNames df)
    (h3 : "geocoded_address" ∉ colNames df) :
    (geocodeAddresses g df).cols.take df.cols.length = df.cols
    ∧ colNames (geocodeAddresses g df) =
        colNames df ++ ["latitude", "longitude", "geocoded_address"]
    ∧ (getCol (geocodeAddresses g df) "latitude").length =
        (getCol df "address").length
    ∧ (getCol (geocodeAddresses g df) "longitude").length =
        (getCol df "address").length
    ∧ (getCol (geocodeAddresses g df) "geocoded_address").length =
        (getCol df "address").length
    ∧ (∀ (i : ℕ) (v : Value), (getCol df "address").get? i = some v →
        g v = .notFound →
        (getCol (geocodeAddresses g df) "latitude").get? i = some .null
        ∧ (getCol (geocodeAddresses g df) "longitude").get? i = some .null
        ∧ (getCol (geocodeAddresses g df) "geocoded_address").get? i =
            some (.str "Not Found")) := by
  set r := geocodeLists g (getCol df "address") with hrdef
  have e1 : setCol df "latitude" r.1 = ⟨df.cols ++ [("latitude", r.1)]⟩ :=
    setCol_of_not_mem df "latitude" r.1 h1
  have n1 : colNames ⟨df.cols ++ [("latitude", r.1)]⟩ =
      colNames df ++ ["latitude"] := by
    simp [colNames]
  have m2 : "longitude" ∉ colNames ⟨df.cols ++ [("latitude", r.1)]⟩ := by
    rw [n1]
    simp [h2]
  have e2 : setCol ⟨df.cols ++ [("latitude", r.1)]⟩ "longitude" r.2.1 =
      ⟨(df.cols ++ [("latitude", r.1)]) ++ [("longitude", r.2.1)]⟩ :=
    setCol_of_not_mem _ "longitude" r.2.1 m2
  have n2 : colNames ⟨(df.cols ++ [("latitude", r.1)]) ++
      [("longitude", r.2.1)]⟩ = colNames df ++ ["latitude", "longitude"] := by
    simp [colNames]
  have m3 : "geocoded_address" ∉
      colNames ⟨(df.cols ++ [("latitude", r.1)]) ++ [("longitude", r.2.1)]⟩ := by
    rw [n2]
    simp [h3]
  have e3 : setCol ⟨(df.cols ++ [("latitude", r.1)]) ++
        [("longitude", r.2.1)]⟩ "geocoded_address" r.2.2 =
      ⟨((df.cols ++ [("latitude", r.1)]) ++ [("longitude", r.2.1)]) ++
        [("geocoded_address", r.2.2)]⟩ :=
    setCol_of_not_mem _ "geocoded_address" r.2.2 m3
  have efinal : geocodeAddresses g df =
      ⟨((df.cols ++ [("latitude", r.1)]) ++ [("longitude", r.2.1)]) ++
        [("geocoded_address", r.2.2)]⟩ := by
    show setCol (setCol (setCol df "latitude" r.1) "longitude" r.2.1)
      "geocoded_address" r.2.2 = _
    rw [e1, e2, e3]
  have hla : getCol (geocodeAddresses g df) "latitude" = r.1 := by
    rw [efinal, getCol_append_last_ne _ _ _ _ (by decide),
      getCol_append_last_ne _ _ _ _ (by decide)]
    exact getCol_append_last_self df.cols "latitude" r.1 h1
  have hlo : getCol (geocodeAddresses g df) "longitude" = r.2.1 := by
    rw [efinal, getCol_append_last_ne _ _ _ _ (by decide)]
    exact getCol_append_last_self _ "longitude" r.2.1 m2
  have hga : getCol (geocodeAddresses g df) "geocoded_address" = r.2.2 := by
    rw [efinal]
    exact getCol_append_last_self _ "geocoded_address" r.2.2 m3
  have hlen := geocodeLists_lengths g (getCol df "address")
  refine ⟨?_, ?_, ?_, ?_, ?_, ?_⟩
  · rw [efinal]
    show (((df.cols ++ [("latitude", r.1)]) ++ [("longitude", r.2.1)]) ++
      [("geocoded_address", r.2.2)]).take df.cols.length = df.cols
    rw [List.append_assoc, List.append_assoc]
    exact List.take_left df.cols _
  · rw [efinal]
    simp [colNames]
  · rw [hla]; exact hlen.1
  · rw [hlo]; exact hlen.2.1
  · rw [hga]; exact hlen.2.2
  · intro i v hv hg
    have h := geocodeLists_get?_notFound g (getCol df "address") i v hv hg
    exact ⟨by rw [hla]; exact h.1, by rw [hlo]; exact h.2.1,
      by rw [hga]; exact h.2.2⟩

/-- Witness for C10 amended at a concrete frame with a single address and a
no-match oracle: the address column survives, the three columns are
appended, and the appended entries are null, null, "Not Found". -/
theorem c10_amended_frame_effect_witness :
    colNames (geocodeAddresses constNotFound ⟨[("address", [Value.str "a"])]⟩)
      = ["address", "latitude", "longitude", "geocoded_address"]
    ∧ (getCol (geocodeAddresses constNotFound
        ⟨[("address", [Value.str "a"])]⟩) "geocoded_address").get? 0 =
      some (Value.str "Not Found") := by
  have h := c10_amended_frame_effect constNotFound
    ⟨[("address", [Value.str "a"])]⟩ (by decide) (by decide) (by decide)
  refine ⟨?_, (h.2.2.2.2.2 0 (Value.str "a") rfl rfl).2.2⟩
  have := h.2.1
  simpa [colNames] using this

end Geocoder
